import Mathlib

/-!
Shallow embedding of the MyAddon FastAPI single-file server
(src/app_single.py) and verification of its specification.

Modelling conventions:
* Python dicts keyed by strings (the user table, the key table) are
  association lists with unique keys, accessed through getk / setk / delk.
* Python integers (timestamps, minutes, device limits) are Int.
* The wall clock (now_ts in the source) is an explicit argument now.
* Optional / possibly-empty strings keep Python truthiness explicit:
  an absent hwid is the empty string, used_by is an Option String and the
  source's truthiness test treats some "" like None.
* Every handler loads the store, mutates a copy and saves it; a handler is
  therefore a pure function from the store (plus request data) to a
  response together with the persisted store.  Paths on which the source
  returns before save_db leave the store argument unchanged.
* The backup file pair used by bulk zero / bulk undo is modelled by World,
  holding the canonical store and the optional backup store.
-/

namespace MyAddon

/-- Association-list lookup, mirroring Python dict indexing / .get. -/
def getk {α : Type} : List (String × α) → String → Option α
  | [], _ => none
  | (k', v) :: rest, k => if k' = k then some v else getk rest k

/-- Association-list update, mirroring Python dict assignment: replace the
entry in place when the key exists, append otherwise. -/
def setk {α : Type} : List (String × α) → String → α → List (String × α)
  | [], k, v => [(k, v)]
  | (k', v') :: rest, k, v =>
      if k' = k then (k, v) :: rest else (k', v') :: setk rest k v

/-- Association-list deletion (Python dict .pop).  It removes every pair
with the key, which on unique-key lists (all dict images) coincides with
dict semantics. -/
def delk {α : Type} : List (String × α) → String → List (String × α)
  | [], _ => []
  | (k', v) :: rest, k =>
      if k' = k then delk rest k else (k', v) :: delk rest k

/-- Map over the values of an association list, keeping keys: the shape of
the source's loops `for k in db[...].values(): mutate k`. -/
def mapVals {α β : Type} (f : α → β) (m : List (String × α)) : List (String × β) :=
  m.map (fun p => (p.1, f p.2))

/-- ASCII uppercase; models Python str.upper on the ASCII data used here. -/
def pyUpper (s : String) : String := String.mk (s.data.map Char.toUpper)

/-- ASCII lowercase; models Python str.lower (Arabic letters are caseless
and unaffected, exactly as in Python). -/
def pyLower (s : String) : String := String.mk (s.data.map Char.toLower)

/-- Python default str.strip whitespace (the ASCII part). -/
def pySpace (c : Char) : Bool :=
  c = ' ' || c = '\t' || c = '\n' || c = '\r' || c = '\x0B' || c = '\x0C'

/-- Python str.strip with no argument. -/
def pyStrip (s : String) : String :=
  String.mk (((s.data.dropWhile pySpace).reverse.dropWhile pySpace).reverse)

/-- Split a character list on a separator; n separators yield n+1 groups
(empty groups included), as Python str.split does. -/
def splitOnChar (sep : Char) : List Char → List (List Char)
  | [] => [[]]
  | c :: cs =>
    match splitOnChar sep cs with
    | [] => [[]]
    | g :: gs => if c = sep then [] :: g :: gs else (c :: g) :: gs

/-- Line splitting for the create-keys textarea (source: str.splitlines on
newline-separated input). -/
def splitLines (s : String) : List String :=
  (splitOnChar '\n' s.data).map String.mk

/-- A character of the class [A-Z0-9] under re.I, i.e. ASCII letters of
either case and digits. -/
def keyChar (c : Char) : Bool := c.isAlpha || c.isDigit

/-- The compiled pattern KEY_RE (line 116 of the source):
`[A-Z0-9]{4,6}(?:-[A-Z0-9]{4,6}){0,3}` anchored on both sides and compiled
with re.I — one to four groups of four to six alphanumeric characters,
separated by single hyphens, case-insensitive. -/
def keyReMatch (s : String) : Bool :=
  let gs := splitOnChar '-' s.data
  decide (gs.length ≤ 4) &&
    gs.all (fun g => decide (4 ≤ g.length) && decide (g.length ≤ 6) && g.all keyChar)

/-- One record of the user table (ensure_user's literal, lines 85-94). -/
structure UserRecord where
  id : String
  expires_at : Int
  unlimited : Bool
  devices : Int
  hwids : List String
  banned : Bool
  role : String
  last_seen : Int
deriving Repr, DecidableEq

/-- One record of the key table (admin_create_keys, lines 544-551). -/
structure KeyRecord where
  code : String
  minutes : Int
  devices : Int
  unlimited : Bool
  single_use : Bool
  used_by : Option String
deriving Repr, DecidableEq

/-- The globals blob (DEFAULT_DB, lines 34-40). -/
structure Globals where
  free_mode : Bool
  lockdown : Bool
  online : Nat
  admin_token : String
deriving Repr, DecidableEq

/-- The whole persisted store.  The source's unused admins table is
omitted: nothing ever reads or writes it. -/
structure Store where
  globals : Globals
  users : List (String × UserRecord)
  keys : List (String × KeyRecord)
deriving Repr, DecidableEq

/-- The canonical store file together with the optional .bak sibling used
by backup_db / restore_backup. -/
structure World where
  main : Store
  bak : Option Store
deriving Repr, DecidableEq

/-- DEFAULT_DB (lines 33-44). -/
def DEFAULT_DB : Store :=
  { globals := { free_mode := false, lockdown := false, online := 0,
                 admin_token := "202426933Ibrahim" },
    users := [], keys := [] }

/-- load_db's first-run initialization (lines 59-64): the default store,
with the admin token overridden by the ADMIN_TOKEN environment variable
when that variable is truthy (non-empty). -/
def init_store (env : String) : Store :=
  if env ≠ "" then
    { DEFAULT_DB with globals := { DEFAULT_DB.globals with admin_token := env } }
  else DEFAULT_DB

/-- ONLINE_WINDOW_SEC (line 28). -/
def ONLINE_WINDOW_SEC : Int := 300

/-- _compute_online (lines 118-121): users whose last_seen lies within the
window of now. -/
def compute_online (db : Store) (now : Int) : Nat :=
  (db.users.filter (fun p => decide (now - p.2.last_seen ≤ ONLINE_WINDOW_SEC))).length

/-- The fresh user literal inside ensure_user (lines 85-94). -/
def defaultUser (uid : String) : UserRecord :=
  { id := uid, expires_at := 0, unlimited := false, devices := 1,
    hwids := [], banned := false, role := "user", last_seen := 0 }

/-- ensure_user (lines 82-96): fetch the record or create the default.
(The source also inserts the fresh record into the in-memory dict; every
caller that persists writes the record back, so the pure fetch-or-default
with the caller's write-back is extensionally the same persisted store.) -/
def ensure_user (users : List (String × UserRecord)) (uid : String) : UserRecord :=
  (getk users uid).getD (defaultUser uid)

/-- The hardware-binding step repeated verbatim at lines 167-171, 186-191
and 245-247: append the hwid only when it is non-empty, not already bound
and the bound count is strictly under the device limit. -/
def bindHwid (u : UserRecord) (hwid : String) : UserRecord :=
  if hwid ≠ "" ∧ ¬ hwid ∈ u.hwids ∧ (u.hwids.length : Int) < u.devices then
    { u with hwids := u.hwids ++ [hwid] }
  else u

/-- The JSON verdict of /api/check (lines 134-142). -/
structure CheckResp where
  ok : Bool
  banned : Bool
  lockdown : Bool
  free_mode : Bool
  unlimited : Bool
  remain : Int
  online : Nat
deriving Repr, DecidableEq

/-- The block repeated on every return path of api_check:
g["online"] = _compute_online(db); save_db(db); resp["online"] = g["online"]. -/
def finishOnline (db : Store) (resp : CheckResp) (now : Int) : CheckResp × Store :=
  let onl := compute_online db now
  ({ resp with online := onl },
   { db with globals := { db.globals with online := onl } })

/-- api_check (lines 129-217), as a pure function from the loaded store
and the query parameters to the JSON verdict and the persisted store.
(The record's id field coincides with its table key in every store the
server itself creates; in-place mutation through the dict alias is
modelled by the single write-back the source performs.) -/
def api_check (db : Store) (id hwid : String) (now : Int) : CheckResp × Store :=
  let g := db.globals
  let resp : CheckResp :=
    { ok := false, banned := false, lockdown := g.lockdown,
      free_mode := g.free_mode, unlimited := false, remain := 0, online := 0 }
  if g.lockdown then
    finishOnline db resp now
  else
    let u? : Option UserRecord := if id ≠ "" then getk db.users id else none
    if (u?.map (fun u => u.banned)).getD false then
      finishOnline db { resp with banned := true } now
    else if g.free_mode then
      let db' :=
        if id ≠ "" then
          let u := ensure_user db.users id
          let u := bindHwid u hwid
          let u := { u with last_seen := now }
          { db with users := setk db.users id u }
        else db
      finishOnline db' { resp with ok := true } now
    else
      match u? with
      | none => finishOnline db resp now
      | some u =>
        let u1 := bindHwid u hwid
        if (u1.hwids.length : Int) > u1.devices then
          finishOnline db resp now
        else
          let u2 := { u1 with last_seen := now }
          let resp :=
            if u2.unlimited then { resp with ok := true, unlimited := true }
            else if u2.expires_at - now > 0 then
              { resp with ok := true, remain := u2.expires_at - now }
            else resp
          finishOnline { db with users := setk db.users u2.id u2 } resp now

/-- The JSON result of /api/activate/key. -/
structure ActResp where
  ok : Bool
  msg : String
deriving Repr, DecidableEq

/-- Python truthiness of the used_by field as tested on line 234:
None and the empty string are both falsy. -/
def usedTruthy : Option String → Bool
  | none => false
  | some s => s ≠ ""

/-- api_activate_by_key (lines 219-264): redeem a key for a user.  Pure
function to the JSON result and the persisted store; failure paths return
before save_db, so they leave the store unchanged. -/
def api_activate_by_key (db : Store) (rid rhwid rkey : String) (now : Int) :
    ActResp × Store :=
  if db.globals.lockdown then ({ ok := false, msg := "lockdown" }, db)
  else if ¬ keyReMatch rkey then ({ ok := false, msg := "bad key format" }, db)
  else
    match getk db.keys rkey with
    | none => ({ ok := false, msg := "key not found" }, db)
    | some key =>
      if key.single_use && usedTruthy key.used_by then
        ({ ok := false, msg := "key already used" }, db)
      else
        let u := ensure_user db.users rid
        if u.banned then ({ ok := false, msg := "banned" }, db)
        else
          let u := { u with devices := max 1 key.devices }
          let u := bindHwid u rhwid
          let u :=
            if key.unlimited then { u with unlimited := true, expires_at := 0 }
            else
              { u with expires_at := max now u.expires_at + key.minutes * 60,
                       unlimited := false }
          let key := if key.single_use then { key with used_by := some rid } else key
          (({ ok := true, msg := "activated" } : ActResp),
           { db with keys := setk db.keys key.code key,
                     users := setk db.users u.id u })

/-- require_admin (lines 267-271) as a Bool: the request is allowed unless
the stored token is truthy (non-empty) and the presented token differs. -/
def require_admin (db : Store) (token : String) : Bool :=
  let need := db.globals.admin_token
  if need ≠ "" ∧ token ≠ need then false else true

/-- The transport-level failures of the admin surface: HTTPException 403
from require_admin, the 404 / 400 PlainText responses, and the ValueError
escaping minutes_from_unit.  On each of them the handler returns or raises
before save_db, so nothing is persisted. -/
inductive AdminErr where
  | forbidden
  | notFound
  | badRequest
  | badUnit
deriving Repr, DecidableEq

/-- minutes_from_unit (lines 108-114); none models the raised ValueError. -/
def minutes_from_unit (amount : Int) (unit : String) : Option Int :=
  let u := pyLower unit
  if u = "m" ∨ u = "minute" ∨ u = "minutes" ∨ u = "د" ∨ u = "دقيقة" ∨ u = "دقائق" then
    some amount
  else if u = "h" ∨ u = "hour" ∨ u = "hours" ∨ u = "س" ∨ u = "ساعة" ∨ u = "ساعات" then
    some (amount * 60)
  else if u = "d" ∨ u = "day" ∨ u = "days" ∨ u = "ي" ∨ u = "يوم" ∨ u = "أيام" ∨ u = "ايام" then
    some (amount * 60 * 24)
  else if u = "mo" ∨ u = "mon" ∨ u = "month" ∨ u = "months" ∨ u = "ش" ∨ u = "شهر" ∨ u = "شهور" then
    some (amount * 60 * 24 * 30)
  else none

/-- admin_toggle (lines 500-509). -/
def admin_toggle (db : Store) (what token : String) : Except AdminErr Store :=
  if require_admin db token then
    if what = "free" then
      .ok { db with globals := { db.globals with free_mode := ¬ db.globals.free_mode } }
    else if what = "lock" then
      .ok { db with globals := { db.globals with lockdown := ¬ db.globals.lockdown } }
    else .ok db
  else .error .forbidden

/-- admin_create_keys (lines 511-553).  The secrets-based code generator is
an environment input, passed as the oracle gen (one fresh code per blank
line, indexed by line number). -/
def admin_create_keys (db : Store) (token codes : String) (amount : Int)
    (unit : String) (devices : Int) (unlimited single_use : Bool)
    (gen : Nat → String) : Except AdminErr Store :=
  if require_admin db token then
    match (if unlimited then some 0 else minutes_from_unit amount unit) with
    | none => .error .badUnit
    | some minutes =>
      let body := pyStrip codes
      let created : List String :=
        if body = "" then [gen 0]
        else
          (splitLines body).enum.map (fun p =>
            let line := pyUpper (pyStrip p.2)
            if line = "" then gen p.1 else line)
      let ks := created.foldl (fun ks code =>
        if keyReMatch code then
          setk ks code
            { code := code, minutes := minutes, devices := max 1 devices,
              unlimited := unlimited, single_use := single_use, used_by := none }
        else ks) db.keys
      .ok { db with keys := ks }
  else .error .forbidden

/-- admin_delete_key (lines 555-564). -/
def admin_delete_key (db : Store) (token code : String) : Except AdminErr Store :=
  if require_admin db token then
    let code := pyUpper code
    if (getk db.keys code).isSome then .ok { db with keys := delk db.keys code }
    else .error .notFound
  else .error .forbidden

/-- admin_edit_key (lines 566-589); preserves used_by. -/
def admin_edit_key (db : Store) (token code : String) (amount : Int)
    (unit : String) (devices : Int) (unlimited single_use : Bool) :
    Except AdminErr Store :=
  if require_admin db token then
    let code := pyUpper code
    match getk db.keys code with
    | none => .error .notFound
    | some key =>
      match (if unlimited then some 0 else minutes_from_unit amount unit) with
      | none => .error .badUnit
      | some minutes =>
        let key := { key with minutes := minutes, devices := max 1 devices,
                              unlimited := unlimited, single_use := single_use }
        .ok { db with keys := setk db.keys code key }
  else .error .forbidden

/-- admin_activate_id (lines 682-705). -/
def admin_activate_id (db : Store) (token uid : String) (amount : Int)
    (unit : String) (devices : Int) (unlimited : Bool) (now : Int) :
    Except AdminErr Store :=
  if require_admin db token then
    let u := ensure_user db.users uid
    let u := { u with devices := max 1 devices }
    if unlimited then
      let u := { u with unlimited := true, expires_at := (0 : Int) }
      .ok { db with users := setk db.users uid u }
    else
      match minutes_from_unit amount unit with
      | none => .error .badUnit
      | some mins =>
        let u := { u with expires_at := max now u.expires_at + mins * 60,
                          unlimited := false }
        .ok { db with users := setk db.users uid u }
  else .error .forbidden

/-- admin_adjust_time (lines 707-729); a no-op redirect for unlimited
users, otherwise add on top of max(now, current) or subtract with a floor
at zero. -/
def admin_adjust_time (db : Store) (token uid : String) (amount : Int)
    (unit op : String) (now : Int) : Except AdminErr Store :=
  if require_admin db token then
    let u := ensure_user db.users uid
    if u.unlimited then .ok db
    else
      match minutes_from_unit amount unit with
      | none => .error .badUnit
      | some mins =>
        let cur := max 0 u.expires_at
        let u :=
          if op = "add" then { u with expires_at := max now cur + mins * 60 }
          else { u with expires_at := max 0 (cur - mins * 60) }
        .ok { db with users := setk db.users uid u }
  else .error .forbidden

/-- admin_set_devices (lines 731-739). -/
def admin_set_devices (db : Store) (token uid : String) (devices : Int) :
    Except AdminErr Store :=
  if require_admin db token then
    let u := ensure_user db.users uid
    let u := { u with devices := max 1 devices }
    .ok { db with users := setk db.users uid u }
  else .error .forbidden

/-- admin_set_unlimited (lines 741-753). -/
def admin_set_unlimited (db : Store) (token uid : String) (unlimited : Bool) :
    Except AdminErr Store :=
  if require_admin db token then
    let u := ensure_user db.users uid
    let u :=
      if unlimited then { u with unlimited := true, expires_at := 0 }
      else { u with unlimited := false }
    .ok { db with users := setk db.users uid u }
  else .error .forbidden

/-- admin_change_id (lines 755-773): rename a user and rewrite every key
record's used_by that equals the old id.  The pop on the missing-user path
is not persisted (no save_db before the 404), so that path leaves the
store unchanged. -/
def admin_change_id (db : Store) (token old_id new_id : String) :
    Except AdminErr Store :=
  if require_admin db token then
    let old_id := pyStrip old_id
    let new_id := pyStrip new_id
    if new_id = "" ∨ (getk db.users new_id).isSome then .error .badRequest
    else
      match getk db.users old_id with
      | none => .error .notFound
      | some u =>
        let u := { u with id := new_id }
        let users := setk (delk db.users old_id) new_id u
        let keys := mapVals (fun k =>
          if k.used_by = some old_id then { k with used_by := some new_id } else k) db.keys
        .ok { db with users := users, keys := keys }
  else .error .forbidden

/-- admin_ban (lines 775-783). -/
def admin_ban (db : Store) (token uid : String) : Except AdminErr Store :=
  if require_admin db token then
    let u := ensure_user db.users uid
    let u := { u with banned := true }
    .ok { db with users := setk db.users uid u }
  else .error .forbidden

/-- admin_unban (lines 785-793). -/
def admin_unban (db : Store) (token uid : String) : Except AdminErr Store :=
  if require_admin db token then
    let u := ensure_user db.users uid
    let u := { u with banned := false }
    .ok { db with users := setk db.users uid u }
  else .error .forbidden

/-- The mutation of admin_bulk_zero's loop (lines 802-804). -/
def zeroUsers (db : Store) : Store :=
  { db with users := mapVals (fun u => { u with unlimited := false, expires_at := 0 }) db.users }

/-- admin_bulk_zero (lines 795-806): after the token and the literal ZERO
confirmation, backup_db copies the canonical file to the .bak sibling and
every user is zeroed. -/
def admin_bulk_zero (w : World) (token confirm : String) : Except AdminErr World :=
  if require_admin w.main token then
    if pyUpper (pyStrip confirm) ≠ "ZERO" then .error .badRequest
    else .ok { main := zeroUsers w.main, bak := some w.main }
  else .error .forbidden

/-- admin_bulk_undo (lines 808-814) with restore_backup (lines 75-80):
copy the .bak sibling back over the canonical file, 404 when absent. -/
def admin_bulk_undo (w : World) (token : String) : Except AdminErr World :=
  if require_admin w.main token then
    match w.bak with
    | none => .error .notFound
    | some b => .ok { main := b, bak := some b }
  else .error .forbidden

/-- The administrative mutation surface, one constructor per POST
endpoint, used to quantify over all admin operations at once. -/
inductive AdminOp where
  | toggle (what : String)
  | createKeys (codes : String) (amount : Int) (unit : String) (devices : Int)
      (unlimited single_use : Bool) (gen : Nat → String)
  | deleteKey (code : String)
  | editKey (code : String) (amount : Int) (unit : String) (devices : Int)
      (unlimited single_use : Bool)
  | activateId (uid : String) (amount : Int) (unit : String) (devices : Int)
      (unlimited : Bool)
  | adjustTime (uid : String) (amount : Int) (unit op : String)
  | setDevices (uid : String) (devices : Int)
  | setUnlimited (uid : String) (unlimited : Bool)
  | changeId (old_id new_id : String)
  | ban (uid : String)
  | unban (uid : String)
  | bulkZero (confirm : String)
  | bulkUndo

/-- Lift a store-level admin handler to the world (the canonical file is
rewritten, the backup sibling untouched). -/
def liftStoreOp (w : World) (r : Except AdminErr Store) : Except AdminErr World :=
  r.map (fun db => { w with main := db })

/-- Dispatch an administrative operation, as the route table does. -/
def runAdminOp (w : World) (op : AdminOp) (token : String) (now : Int) :
    Except AdminErr World :=
  match op with
  | .toggle what => liftStoreOp w (admin_toggle w.main what token)
  | .createKeys codes amount unit devices unl su gen =>
      liftStoreOp w (admin_create_keys w.main token codes amount unit devices unl su gen)
  | .deleteKey code => liftStoreOp w (admin_delete_key w.main token code)
  | .editKey code amount unit devices unl su =>
      liftStoreOp w (admin_edit_key w.main token code amount unit devices unl su)
  | .activateId uid amount unit devices unl =>
      liftStoreOp w (admin_activate_id w.main token uid amount unit devices unl now)
  | .adjustTime uid amount unit op =>
      liftStoreOp w (admin_adjust_time w.main token uid amount unit op now)
  | .setDevices uid devices => liftStoreOp w (admin_set_devices w.main token uid devices)
  | .setUnlimited uid unl => liftStoreOp w (admin_set_unlimited w.main token uid unl)
  | .changeId old_id new_id => liftStoreOp w (admin_change_id w.main token old_id new_id)
  | .ban uid => liftStoreOp w (admin_ban w.main token uid)
  | .unban uid => liftStoreOp w (admin_unban w.main token uid)
  | .bulkZero confirm => admin_bulk_zero w token confirm
  | .bulkUndo => admin_bulk_undo w token

/-! ### Association-list lemmas -/

theorem getk_setk_self {α : Type} (m : List (String × α)) (k : String) (v : α) :
    getk (setk m k v) k = some v := by
  induction m with
  | nil => simp [getk, setk]
  | cons p rest ih =>
    obtain ⟨k', v'⟩ := p
    by_cases h : k' = k <;> simp [getk, setk, h, ih]

theorem getk_setk_ne {α : Type} (m : List (String × α)) (k k' : String) (v : α)
    (h : k' ≠ k) : getk (setk m k v) k' = getk m k' := by
  induction m with
  | nil => simp [getk, setk, Ne.symm h]
  | cons p rest ih =>
    obtain ⟨k0, v0⟩ := p
    by_cases h0 : k0 = k
    · subst h0
      simp [getk, setk, Ne.symm h]
    · simp only [setk, if_neg h0, getk]
      by_cases h1 : k0 = k' <;> simp [h1, ih]

theorem getk_delk_self {α : Type} (m : List (String × α)) (k : String) :
    getk (delk m k) k = none := by
  induction m with
  | nil => simp [getk, delk]
  | cons p rest ih =>
    obtain ⟨k0, v0⟩ := p
    by_cases h : k0 = k <;> simp [getk, delk, h, ih]

theorem getk_mapVals {α β : Type} (f : α → β) (m : List (String × α)) (k : String) :
    getk (mapVals f m) k = (getk m k).map f := by
  induction m with
  | nil => simp [getk, mapVals]
  | cons p rest ih =>
    obtain ⟨k0, v0⟩ := p
    by_cases h : k0 = k
    · simp [getk, mapVals, h]
    · simp only [getk, mapVals, List.map_cons, if_neg h]
      simpa [mapVals] using ih

theorem mem_setk {α : Type} {m : List (String × α)} {k : String} {v : α}
    {p : String × α} (h : p ∈ setk m k v) : p = (k, v) ∨ p ∈ m := by
  induction m with
  | nil =>
    simp only [setk, List.mem_singleton] at h
    exact .inl h
  | cons q rest ih =>
    obtain ⟨k0, v0⟩ := q
    by_cases h0 : k0 = k
    · rw [setk, if_pos h0, List.mem_cons] at h
      rcases h with h1 | h1
      · exact .inl h1
      · exact .inr (List.mem_cons_of_mem _ h1)
    · rw [setk, if_neg h0, List.mem_cons] at h
      rcases h with h1 | h1
      · exact .inr (by rw [h1]; exact List.mem_cons_self _ _)
      · rcases ih h1 with h2 | h2
        · exact .inl h2
        · exact .inr (List.mem_cons_of_mem _ h2)

theorem mem_delk {α : Type} {m : List (String × α)} {k : String}
    {p : String × α} (h : p ∈ delk m k) : p ∈ m := by
  induction m with
  | nil => simp [delk] at h
  | cons q rest ih =>
    obtain ⟨k0, v0⟩ := q
    by_cases h0 : k0 = k
    · rw [delk, if_pos h0] at h
      exact List.mem_cons_of_mem _ (ih h)
    · rw [delk, if_neg h0, List.mem_cons] at h
      rcases h with h1 | h1
      · rw [h1]; exact List.mem_cons_self _ _
      · exact List.mem_cons_of_mem _ (ih h1)

theorem getk_mem {α : Type} {m : List (String × α)} {k : String} {v : α}
    (h : getk m k = some v) : (k, v) ∈ m := by
  induction m with
  | nil => simp [getk] at h
  | cons q rest ih =>
    obtain ⟨k0, v0⟩ := q
    by_cases h0 : k0 = k
    · subst h0
      rw [getk, if_pos rfl, Option.some.injEq] at h
      rw [h]
      exact List.mem_cons_self _ _
    · rw [getk, if_neg h0] at h
      exact List.mem_cons_of_mem _ (ih h)

/-- All values of an association list satisfy a predicate. -/
abbrev allVals {α : Type} (P : α → Prop) (m : List (String × α)) : Prop :=
  ∀ p ∈ m, P p.2

theorem allVals_setk {α : Type} {P : α → Prop} {m : List (String × α)}
    {k : String} {v : α} (hm : allVals P m) (hv : P v) : allVals P (setk m k v) := by
  intro p hp
  rcases mem_setk hp with h | h
  · subst h; exact hv
  · exact hm p h

theorem allVals_delk {α : Type} {P : α → Prop} {m : List (String × α)}
    {k : String} (hm : allVals P m) : allVals P (delk m k) :=
  fun p hp => hm p (mem_delk hp)

theorem allVals_getk {α : Type} {P : α → Prop} {m : List (String × α)}
    {k : String} {v : α} (hm : allVals P m) (h : getk m k = some v) : P v :=
  hm (k, v) (getk_mem h)

theorem allVals_mapVals {α : Type} {P : α → Prop} {f : α → α}
    {m : List (String × α)} (h : ∀ a, P (f a)) : allVals P (mapVals f m) := by
  intro p hp
  simp only [mapVals, List.mem_map] at hp
  obtain ⟨q, _, rfl⟩ := hp
  exact h q.2

theorem allVals_ensure {P : UserRecord → Prop} {users : List (String × UserRecord)}
    {uid : String} (hm : allVals P users) (hd : P (defaultUser uid)) :
    P (ensure_user users uid) := by
  unfold ensure_user
  cases h : getk users uid with
  | none => simpa using hd
  | some u => simpa using allVals_getk hm h

/-! ### Record-shape lemmas -/

@[simp] theorem bindHwid_id (u : UserRecord) (h : String) : (bindHwid u h).id = u.id := by
  unfold bindHwid; split <;> rfl

@[simp] theorem bindHwid_expires_at (u : UserRecord) (h : String) :
    (bindHwid u h).expires_at = u.expires_at := by
  unfold bindHwid; split <;> rfl

@[simp] theorem bindHwid_unlimited (u : UserRecord) (h : String) :
    (bindHwid u h).unlimited = u.unlimited := by
  unfold bindHwid; split <;> rfl

@[simp] theorem bindHwid_devices (u : UserRecord) (h : String) :
    (bindHwid u h).devices = u.devices := by
  unfold bindHwid; split <;> rfl

@[simp] theorem bindHwid_banned (u : UserRecord) (h : String) :
    (bindHwid u h).banned = u.banned := by
  unfold bindHwid; split <;> rfl

@[simp] theorem bindHwid_last_seen (u : UserRecord) (h : String) :
    (bindHwid u h).last_seen = u.last_seen := by
  unfold bindHwid; split <;> rfl

@[simp] theorem finishOnline_snd_users (db : Store) (resp : CheckResp) (now : Int) :
    (finishOnline db resp now).2.users = db.users := rfl

@[simp] theorem finishOnline_snd_keys (db : Store) (resp : CheckResp) (now : Int) :
    (finishOnline db resp now).2.keys = db.keys := rfl

@[simp] theorem finishOnline_snd_token (db : Store) (resp : CheckResp) (now : Int) :
    (finishOnline db resp now).2.globals.admin_token = db.globals.admin_token := rfl

@[simp] theorem finishOnline_fst_ok (db : Store) (resp : CheckResp) (now : Int) :
    (finishOnline db resp now).1.ok = resp.ok := rfl

@[simp] theorem zeroUsers_globals (db : Store) : (zeroUsers db).globals = db.globals := rfl

/-- The user table persisted by api_check takes one of three shapes: it is
unchanged (lockdown, banned, unknown-user and over-limit denials), or the
free-mode path wrote back the lazily created user after binding and
stamping last_seen, or the entitlement path wrote back the found user
after binding and stamping last_seen. -/
theorem api_check_users_cases (db : Store) (id hwid : String) (now : Int) :
    (api_check db id hwid now).2.users = db.users ∨
    (api_check db id hwid now).2.users =
      setk db.users id { bindHwid (ensure_user db.users id) hwid with last_seen := now } ∨
    ∃ u, getk db.users id = some u ∧
      (api_check db id hwid now).2.users =
        setk db.users (bindHwid u hwid).id { bindHwid u hwid with last_seen := now } := by
  by_cases hlock : db.globals.lockdown = true
  · left; simp [api_check, hlock]
  · by_cases hid : id = ""
    · subst hid
      left
      by_cases hfree : db.globals.free_mode = true <;> simp [api_check, hlock, hfree]
    · cases hget : getk db.users id with
      | none =>
        by_cases hfree : db.globals.free_mode = true
        · right; left
          simp [api_check, hlock, hid, hget, hfree]
        · left
          simp [api_check, hlock, hid, hget, hfree]
      | some u =>
        by_cases hban : u.banned = true
        · left
          simp [api_check, hlock, hid, hget, hban]
        · by_cases hfree : db.globals.free_mode = true
          · right; left
            simp [api_check, hlock, hid, hget, hban, hfree, ensure_user]
          · by_cases hover : u.devices < ((bindHwid u hwid).hwids.length : Int)
            · left
              simp [api_check, hlock, hid, hget, hban, hfree, hover]
            · right; right
              exact ⟨u, rfl, by simp [api_check, hlock, hid, hget, hban, hfree, hover]⟩

/-! ### Claims -/

/-- C1: with global lockdown set, api_check denies every request (ok false,
lockdown true in the verdict) regardless of identity, and the presence
count is still recomputed and persisted: the saved store is the input
store with only globals.online replaced by the freshly computed count. -/
theorem C1_lockdown_dominates (db : Store) (id hwid : String) (now : Int)
    (h : db.globals.lockdown = true) :
    (api_check db id hwid now).1.ok = false ∧
    (api_check db id hwid now).1.lockdown = true ∧
    (api_check db id hwid now).1.online = compute_online db now ∧
    (api_check db id hwid now).2 =
      { db with globals := { db.globals with online := compute_online db now } } := by
  simp [api_check, finishOnline, h]

def c1db : Store :=
  { globals := { free_mode := true, lockdown := true, online := 7, admin_token := "t" },
    users := [("a", { defaultUser "a" with last_seen := 50, banned := true })],
    keys := [] }

/-- C1 witness: the lockdown-dominates theorem applied to a concrete store
in lockdown, holding a banned user, with free mode on. -/
theorem C1_witness :
    (api_check c1db "a" "h" 60).1.ok = false ∧
    (api_check c1db "a" "h" 60).1.lockdown = true ∧
    (api_check c1db "a" "h" 60).1.online = compute_online c1db 60 ∧
    (api_check c1db "a" "h" 60).2 =
      { c1db with globals := { c1db.globals with online := compute_online c1db 60 } } :=
  C1_lockdown_dominates c1db "a" "h" 60 rfl

def c2db : Store :=
  { globals := { free_mode := true, lockdown := false, online := 0, admin_token := "t" },
    users := [], keys := [] }

/-- C2 counterexample: with lockdown unset but free mode set, an
access-check with the empty id is granted (ok true), refuting the claim
that an empty id always yields a denial when lockdown is off: in the code
the free-mode rule precedes the unknown-user rule and does not require a
non-empty id. -/
theorem C2_counterexample :
    c2db.globals.lockdown = false ∧
    c2db.globals.free_mode = true ∧
    (api_check c2db "" "hw" 100).1.ok = true := by decide

/-- C2 (amended): when lockdown is not set, an access-check whose id is
the empty string returns ok equal to the freeMode flag — a denial exactly
when free mode is off (the no-user rule fires), but a grant when free mode
is on. -/
theorem C2_empty_id_ok_iff_free_mode (db : Store) (hwid : String) (now : Int)
    (h : db.globals.lockdown = false) :
    (api_check db "" hwid now).1.ok = db.globals.free_mode := by
  cases hf : db.globals.free_mode <;> simp [api_check, finishOnline, h, hf]

def c2db2 : Store :=
  { globals := { free_mode := false, lockdown := false, online := 0, admin_token := "t" },
    users := [], keys := [] }

/-- C2 witness: the amended theorem applied to a concrete store with free
mode off, where the empty-id check is denied. -/
theorem C2_witness :
    (api_check c2db2 "" "hw" 100).1.ok = c2db2.globals.free_mode :=
  C2_empty_id_ok_iff_free_mode c2db2 "hw" 100 rfl

def c3key : KeyRecord :=
  { code := "AAAA-1111", minutes := 60, devices := 1, unlimited := false,
    single_use := true, used_by := none }

def c3db : Store :=
  { globals := { free_mode := false, lockdown := false, online := 0, admin_token := "t" },
    users := [], keys := [("AAAA-1111", c3key)] }

/-- C3: redemption is not case-insensitive in the code.  The presented
code aaaa-1111 matches the case-insensitive key-code grammar and its
uppercasing is the stored code AAAA-1111, yet redemption fails with the
not-found message, while redeeming the uppercase code succeeds: the
redemption lookup, unlike admin delete/edit, never uppercases its input. -/
theorem C3_lowercase_key_not_found :
    keyReMatch "aaaa-1111" = true ∧
    pyUpper "aaaa-1111" = "AAAA-1111" ∧
    getk c3db.keys "AAAA-1111" = some c3key ∧
    (api_activate_by_key c3db "u1" "" "aaaa-1111" 1000).1 =
      { ok := false, msg := "key not found" } ∧
    (api_activate_by_key c3db "u1" "" "AAAA-1111" 1000).1 =
      { ok := true, msg := "activated" } := by decide

def c4key : KeyRecord :=
  { code := "BBBB-2222", minutes := 30, devices := 1, unlimited := false,
    single_use := true, used_by := some "" }

def c4db : Store :=
  { globals := { free_mode := false, lockdown := false, online := 0, admin_token := "t" },
    users := [], keys := [("BBBB-2222", c4key)] }

/-- C4 counterexample: a single-use key whose used_by is non-null (the
empty string, as left by a redemption with an empty user id) is redeemed
again successfully and the store changes, because the code tests used_by
by Python truthiness, treating the empty string like null. -/
theorem C4_counterexample :
    c4key.single_use = true ∧
    c4key.used_by ≠ none ∧
    (api_activate_by_key c4db "u2" "" "BBBB-2222" 500).1 =
      { ok := true, msg := "activated" } ∧
    (api_activate_by_key c4db "u2" "" "BBBB-2222" 500).2 ≠ c4db := by decide

/-- C4 (amended): if a single-use key has a non-null and non-empty
used_by, a further redemption attempt (with lockdown off and a well-formed
code, so that the reuse check is reached) fails with the already-used
message and persists no change: the store after both attempts equals the
store after the first alone. -/
theorem C4_single_use_reuse_rejected (db : Store) (k : KeyRecord)
    (rid rhwid rkey uid : String) (now : Int)
    (hl : db.globals.lockdown = false) (hf : keyReMatch rkey = true)
    (hk : getk db.keys rkey = some k) (hs : k.single_use = true)
    (hu : k.used_by = some uid) (hne : uid ≠ "") :
    api_activate_by_key db rid rhwid rkey now =
      ({ ok := false, msg := "key already used" }, db) := by
  simp [api_activate_by_key, hl, hf, hk, hs, hu, usedTruthy, hne]

def c4key2 : KeyRecord :=
  { code := "BBBB-2222", minutes := 30, devices := 1, unlimited := false,
    single_use := true, used_by := some "u1" }

def c4db2 : Store :=
  { globals := { free_mode := false, lockdown := false, online := 0, admin_token := "t" },
    users := [], keys := [("BBBB-2222", c4key2)] }

/-- C4 witness: the amended theorem applied to a concrete store whose
single-use key was redeemed by user u1; a second redemption by u2 fails
with the already-used message and leaves the store as it was. -/
theorem C4_witness :
    api_activate_by_key c4db2 "u2" "" "BBBB-2222" 500 =
      ({ ok := false, msg := "key already used" }, c4db2) :=
  C4_single_use_reuse_rejected c4db2 c4key2 "u2" "" "BBBB-2222" "u1" 500
    rfl (by decide) rfl rfl rfl (by decide)

/-- C5: a successful redemption of a non-unlimited key granting m minutes
sets the user's expiry to max(now, previous expiry) plus m*60 seconds and
clears the unlimited flag, preserving any unexpired remainder. -/
theorem C5_time_accrual (db : Store) (k : KeyRecord) (rid rhwid rkey : String) (now : Int)
    (hl : db.globals.lockdown = false) (hf : keyReMatch rkey = true)
    (hk : getk db.keys rkey = some k)
    (hnu : (k.single_use && usedTruthy k.used_by) = false)
    (hb : (ensure_user db.users rid).banned = false)
    (hunl : k.unlimited = false) :
    (api_activate_by_key db rid rhwid rkey now).1.ok = true ∧
    (getk (api_activate_by_key db rid rhwid rkey now).2.users
        (ensure_user db.users rid).id).map (fun u => (u.expires_at, u.unlimited)) =
      some (max now (ensure_user db.users rid).expires_at + k.minutes * 60, false) := by
  simp [api_activate_by_key, hl, hf, hk, hnu, hb, hunl, getk_setk_self]

def c5u : UserRecord := { defaultUser "u1" with expires_at := 1100 }

def c5key : KeyRecord :=
  { code := "DDDD-4444", minutes := 60, devices := 2, unlimited := false,
    single_use := true, used_by := none }

def c5db : Store :=
  { globals := { free_mode := false, lockdown := false, online := 0, admin_token := "t" },
    users := [("u1", c5u)], keys := [("DDDD-4444", c5key)] }

/-- C5 witness: at now = 1000 a user with expiry 1100 (that is, now+100)
redeeming a 60-minute key ends with expiry 1100 + 3600 = 4700, the spec's
concrete example. -/
theorem C5_witness :
    ((api_activate_by_key c5db "u1" "hw1" "DDDD-4444" 1000).1.ok = true ∧
     (getk (api_activate_by_key c5db "u1" "hw1" "DDDD-4444" 1000).2.users
         (ensure_user c5db.users "u1").id).map (fun u => (u.expires_at, u.unlimited)) =
       some (max 1000 (ensure_user c5db.users "u1").expires_at + c5key.minutes * 60, false)) ∧
    (getk (api_activate_by_key c5db "u1" "hw1" "DDDD-4444" 1000).2.users "u1").map
        (fun u => u.expires_at) = some 4700 :=
  ⟨C5_time_accrual c5db c5key "u1" "hw1" "DDDD-4444" 1000 rfl (by decide) rfl
     (by decide) (by decide) rfl,
   by decide⟩

/-- The per-user device-limit invariant of the spec. -/
abbrev devInv (u : UserRecord) : Prop := (u.hwids.length : Int) ≤ u.devices

def c6user : UserRecord :=
  { id := "u", expires_at := 0, unlimited := false, devices := 2,
    hwids := ["a", "b"], banned := false, role := "user", last_seen := 0 }

def c6db : Store :=
  { globals := { free_mode := false, lockdown := false, online := 0, admin_token := "t" },
    users := [("u", c6user)], keys := [] }

def c6uafter : UserRecord := { c6user with devices := 1 }

def c6after : Store := { c6db with users := [("u", c6uafter)] }

/-- C6 counterexample: the admin set-devices mutation succeeds with a
valid token while lowering the limit of a user with two bound hardware
ids to one, persisting a user that violates
len(boundHardwareIds) ≤ deviceLimit — so the invariant does not hold
after every successful mutation. -/
theorem C6_counterexample :
    (admin_set_devices c6db "t" "u" 1).toOption = some c6after ∧
    getk c6after.users "u" = some c6uafter ∧
    c6uafter.hwids.length = 2 ∧ c6uafter.devices = 1 ∧ ¬ devInv c6uafter := by decide

/-- C6 (amended): a bind attempt never pushes the bound count over the
limit — a hardware id is added only while strictly under the limit, and a
bind that would exceed it is rejected by simply not adding, without
failing the request — so binding preserves the invariant, and api_check
(which never rewrites the limit) preserves it store-wide; but operations
that overwrite the device limit (admin set-devices, redemption's limit
replacement) may lower it below the current bound count. -/
theorem C6_bind_respects_limit :
    (∀ (u : UserRecord) (hwid : String), devInv u → devInv (bindHwid u hwid)) ∧
    (∀ (u : UserRecord) (hwid : String), (bindHwid u hwid).devices = u.devices) ∧
    (∀ (db : Store) (id hwid : String) (now : Int),
        allVals devInv db.users → allVals devInv (api_check db id hwid now).2.users) := by
  have hbind : ∀ (u : UserRecord) (hwid : String), devInv u → devInv (bindHwid u hwid) := by
    intro u hwid h
    unfold bindHwid
    split
    case isTrue hc =>
      simp only [devInv, List.length_append, List.length_singleton]
      have h2 := hc.2.2
      push_cast
      push_cast at h2
      omega
    case isFalse => exact h
  have hdef : ∀ uid : String, devInv (defaultUser uid) := by
    intro uid; simp [defaultUser]
  refine ⟨hbind, fun u hwid => bindHwid_devices u hwid, ?_⟩
  intro db id hwid now hinv
  rcases api_check_users_cases db id hwid now with h | h | ⟨u, hu, h⟩
  · rw [h]; exact hinv
  · rw [h]
    exact allVals_setk hinv (hbind _ _ (allVals_ensure hinv (hdef id)))
  · rw [h]
    exact allVals_setk hinv (hbind _ _ (allVals_getk hinv hu))

def c6wdb : Store :=
  { globals := { free_mode := false, lockdown := false, online := 0, admin_token := "t" },
    users := [("x", { defaultUser "x" with devices := 1, hwids := ["h0"] })], keys := [] }

/-- C6 witness: the amended theorem applied to a concrete user at its
device limit and to a concrete store run through api_check. -/
theorem C6_witness :
    devInv (bindHwid { defaultUser "x" with devices := 1, hwids := ["h0"] } "h1") ∧
    allVals devInv (api_check c6wdb "x" "h1" 10).2.users :=
  ⟨C6_bind_respects_limit.1 { defaultUser "x" with devices := 1, hwids := ["h0"] } "h1"
     (by decide),
   C6_bind_respects_limit.2.2 c6wdb "x" "h1" 10 (by decide)⟩

/-! ### The unlimited/expiry canonical-form invariant and its helpers -/

/-- The canonical representation invariant: an unlimited user has zero
expiry. -/
abbrev unlInv (u : UserRecord) : Prop := u.unlimited = true → u.expires_at = 0

theorem unlInv_default (uid : String) : unlInv (defaultUser uid) := by
  intro h
  simp [defaultUser] at h

theorem unlInv_ensure {users : List (String × UserRecord)} {uid : String}
    (hm : allVals unlInv users) : unlInv (ensure_user users uid) :=
  allVals_ensure hm (unlInv_default uid)

theorem unlInv_bind {u : UserRecord} (h : String) (hu : unlInv u) :
    unlInv (bindHwid u h) := by
  intro hx
  rw [bindHwid_unlimited] at hx
  rw [bindHwid_expires_at]
  exact hu hx

/-- The user table persisted by api_activate_by_key is either unchanged
(every failure path) or a single write-back of a record satisfying the
canonical-form invariant: the grant step always sets unlimited together
with expires_at. -/
theorem redeem_users_unl (db : Store) (rid rhwid rkey : String) (now : Int) :
    (api_activate_by_key db rid rhwid rkey now).2.users = db.users ∨
    ∃ u, (api_activate_by_key db rid rhwid rkey now).2.users = setk db.users u.id u ∧
      unlInv u := by
  by_cases hlock : db.globals.lockdown = true
  · left; simp [api_activate_by_key, hlock]
  · by_cases hf : keyReMatch rkey = true
    · cases hk : getk db.keys rkey with
      | none => left; simp [api_activate_by_key, hlock, hf, hk]
      | some key =>
        by_cases hru : (key.single_use && usedTruthy key.used_by) = true
        · left; simp [api_activate_by_key, hlock, hf, hk, hru]
        · by_cases hb : (ensure_user db.users rid).banned = true
          · left; simp [api_activate_by_key, hlock, hf, hk, hru, hb]
          · right
            by_cases hunl : key.unlimited = true
            · refine ⟨{ bindHwid { ensure_user db.users rid with
                    devices := max 1 key.devices } rhwid with
                    unlimited := true, expires_at := (0 : Int) }, ?_, ?_⟩
              · simp [api_activate_by_key, hlock, hf, hk, hru, hb, hunl]
              · intro _
                rfl
            · refine ⟨{ bindHwid { ensure_user db.users rid with
                    devices := max 1 key.devices } rhwid with
                    expires_at := max now (ensure_user db.users rid).expires_at +
                      key.minutes * 60,
                    unlimited := false }, ?_, ?_⟩
              · simp [api_activate_by_key, hlock, hf, hk, hru, hb, hunl]
              · intro hx
                exact Bool.noConfusion hx
    · left; simp [api_activate_by_key, hlock, hf]

/-- What a successful admin_toggle does to the admin token and the user
table (nothing). -/
theorem admin_toggle_ok {db db' : Store} {what token : String}
    (h : admin_toggle db what token = .ok db') :
    db'.globals.admin_token = db.globals.admin_token ∧ db'.users = db.users := by
  simp only [admin_toggle] at h
  repeat' split at h
  all_goals first
    | exact Except.noConfusion h
    | (injection h with h; subst h; exact ⟨rfl, rfl⟩)

/-- A successful admin_create_keys leaves the token and user table
untouched. -/
theorem admin_create_keys_ok {db db' : Store} {token codes : String} {amount : Int}
    {unit : String} {devices : Int} {unlimited single_use : Bool} {gen : Nat → String}
    (h : admin_create_keys db token codes amount unit devices unlimited single_use gen
          = .ok db') :
    db'.globals.admin_token = db.globals.admin_token ∧ db'.users = db.users := by
  simp only [admin_create_keys] at h
  repeat' split at h
  all_goals first
    | exact Except.noConfusion h
    | (injection h with h; subst h; exact ⟨rfl, rfl⟩)

/-- A successful admin_delete_key leaves the token and user table
untouched. -/
theorem admin_delete_key_ok {db db' : Store} {token code : String}
    (h : admin_delete_key db token code = .ok db') :
    db'.globals.admin_token = db.globals.admin_token ∧ db'.users = db.users := by
  simp only [admin_delete_key] at h
  repeat' split at h
  all_goals first
    | exact Except.noConfusion h
    | (injection h with h; subst h; exact ⟨rfl, rfl⟩)

/-- A successful admin_edit_key leaves the token and user table
untouched. -/
theorem admin_edit_key_ok {db db' : Store} {token code : String} {amount : Int}
    {unit : String} {devices : Int} {unlimited single_use : Bool}
    (h : admin_edit_key db token code amount unit devices unlimited single_use = .ok db') :
    db'.globals.admin_token = db.globals.admin_token ∧ db'.users = db.users := by
  simp only [admin_edit_key] at h
  repeat' split at h
  all_goals first
    | exact Except.noConfusion h
    | (injection h with h; subst h; exact ⟨rfl, rfl⟩)

/-- A successful admin_activate_id keeps the token and writes back one
user in canonical form. -/
theorem admin_activate_id_ok {db db' : Store} {token uid : String} {amount : Int}
    {unit : String} {devices : Int} {unlimited : Bool} {now : Int}
    (h : admin_activate_id db token uid amount unit devices unlimited now = .ok db') :
    db'.globals.admin_token = db.globals.admin_token ∧
      (allVals unlInv db.users → allVals unlInv db'.users) := by
  simp only [admin_activate_id] at h
  repeat' split at h
  all_goals first
    | exact Except.noConfusion h
    | (injection h with h; subst h;
       refine ⟨rfl, fun hm => allVals_setk hm ?_⟩;
       first
         | (intro _; rfl)
         | (intro hx; exact Bool.noConfusion hx))

/-- A successful admin_adjust_time keeps the token and preserves the
canonical form (it only mutates non-unlimited users). -/
theorem admin_adjust_time_ok {db db' : Store} {token uid : String} {amount : Int}
    {unit op : String} {now : Int}
    (h : admin_adjust_time db token uid amount unit op now = .ok db') :
    db'.globals.admin_token = db.globals.admin_token ∧
      (allVals unlInv db.users → allVals unlInv db'.users) := by
  simp only [admin_adjust_time] at h
  repeat' split at h
  all_goals first
    | exact Except.noConfusion h
    | (injection h with h; subst h; exact ⟨rfl, fun hm => hm⟩)
    | (injection h with h; subst h;
       refine ⟨rfl, fun hm => allVals_setk hm ?_⟩;
       intro hx;
       simp_all)

/-- A successful admin_set_devices keeps the token and preserves the
canonical form (it never touches unlimited or expires_at). -/
theorem admin_set_devices_ok {db db' : Store} {token uid : String} {devices : Int}
    (h : admin_set_devices db token uid devices = .ok db') :
    db'.globals.admin_token = db.globals.admin_token ∧
      (allVals unlInv db.users → allVals unlInv db'.users) := by
  simp only [admin_set_devices] at h
  repeat' split at h
  all_goals first
    | exact Except.noConfusion h
    | (injection h with h; subst h;
       refine ⟨rfl, fun hm => allVals_setk hm ?_⟩;
       intro hx;
       exact unlInv_ensure hm hx)

/-- A successful admin_set_unlimited keeps the token and writes the user
in canonical form (setting unlimited also zeroes expires_at). -/
theorem admin_set_unlimited_ok {db db' : Store} {token uid : String} {unlimited : Bool}
    (h : admin_set_unlimited db token uid unlimited = .ok db') :
    db'.globals.admin_token = db.globals.admin_token ∧
      (allVals unlInv db.users → allVals unlInv db'.users) := by
  simp only [admin_set_unlimited] at h
  repeat' split at h
  all_goals first
    | exact Except.noConfusion h
    | (injection h with h; subst h;
       refine ⟨rfl, fun hm => allVals_setk hm ?_⟩;
       first
         | (intro _; rfl)
         | (intro hx; exact Bool.noConfusion hx))

/-- A successful admin_change_id keeps the token and moves one unchanged
user record, preserving the canonical form. -/
theorem admin_change_id_ok {db db' : Store} {token old_id new_id : String}
    (h : admin_change_id db token old_id new_id = .ok db') :
    db'.globals.admin_token = db.globals.admin_token ∧
      (allVals unlInv db.users → allVals unlInv db'.users) := by
  simp only [admin_change_id] at h
  repeat' split at h
  all_goals first
    | exact Except.noConfusion h
    | (injection h with h; subst h;
       rename_i u heq;
       refine ⟨rfl, fun hm => allVals_setk (allVals_delk hm) ?_⟩;
       intro hx;
       exact allVals_getk hm heq hx)

/-- A successful admin_ban keeps the token and preserves the canonical
form. -/
theorem admin_ban_ok {db db' : Store} {token uid : String}
    (h : admin_ban db token uid = .ok db') :
    db'.globals.admin_token = db.globals.admin_token ∧
      (allVals unlInv db.users → allVals unlInv db'.users) := by
  simp only [admin_ban] at h
  repeat' split at h
  all_goals first
    | exact Except.noConfusion h
    | (injection h with h; subst h;
       refine ⟨rfl, fun hm => allVals_setk hm ?_⟩;
       intro hx;
       exact unlInv_ensure hm hx)

/-- A successful admin_unban keeps the token and preserves the canonical
form. -/
theorem admin_unban_ok {db db' : Store} {token uid : String}
    (h : admin_unban db token uid = .ok db') :
    db'.globals.admin_token = db.globals.admin_token ∧
      (allVals unlInv db.users → allVals unlInv db'.users) := by
  simp only [admin_unban] at h
  repeat' split at h
  all_goals first
    | exact Except.noConfusion h
    | (injection h with h; subst h;
       refine ⟨rfl, fun hm => allVals_setk hm ?_⟩;
       intro hx;
       exact unlInv_ensure hm hx)

/-- Inversion of a successful admin_bulk_zero. -/
theorem admin_bulk_zero_ok {w w' : World} {token confirm : String}
    (h : admin_bulk_zero w token confirm = .ok w') :
    w' = { main := zeroUsers w.main, bak := some w.main } := by
  simp only [admin_bulk_zero] at h
  repeat' split at h
  all_goals first
    | exact Except.noConfusion h
    | (injection h with h; exact h.symm)

/-- Inversion of a successful admin_bulk_undo. -/
theorem admin_bulk_undo_ok {w w' : World} {token : String}
    (h : admin_bulk_undo w token = .ok w') :
    ∃ b, w.bak = some b ∧ w' = { main := b, bak := some b } := by
  simp only [admin_bulk_undo] at h
  repeat' split at h
  all_goals first
    | exact Except.noConfusion h
    | (injection h with h; exact ⟨_, by assumption, h.symm⟩)

/-- The canonical-form invariant over a whole world: it holds of the user
table of the canonical store and of the backup store when one exists. -/
abbrev worldUnlInv (w : World) : Prop :=
  allVals unlInv w.main.users ∧ w.bak.elim True (fun b => allVals unlInv b.users)

/-- C7: the canonical representation unlimited = true implies
expires_at = 0 is an invariant of every mutation: api_check, key
redemption and every administrative operation (including bulk zero and
bulk undo through the backup file) preserve it on every persisted user
record — any operation that sets unlimited also zeroes expires_at. -/
theorem C7_unlimited_zero_canonical :
    (∀ (db : Store) (id hwid : String) (now : Int),
        allVals unlInv db.users → allVals unlInv (api_check db id hwid now).2.users) ∧
    (∀ (db : Store) (rid rhwid rkey : String) (now : Int),
        allVals unlInv db.users →
          allVals unlInv (api_activate_by_key db rid rhwid rkey now).2.users) ∧
    (∀ (w : World) (op : AdminOp) (token : String) (now : Int) (w' : World),
        runAdminOp w op token now = .ok w' → worldUnlInv w → worldUnlInv w') := by
  refine ⟨?_, ?_, ?_⟩
  · intro db id hwid now hinv
    rcases api_check_users_cases db id hwid now with h | h | ⟨u, hu, h⟩
    · rw [h]; exact hinv
    · rw [h]
      exact allVals_setk hinv (unlInv_bind _ (unlInv_ensure hinv))
    · rw [h]
      exact allVals_setk hinv (unlInv_bind _ (allVals_getk hinv hu))
  · intro db rid rhwid rkey now hinv
    rcases redeem_users_unl db rid rhwid rkey now with h | ⟨u, h, hu⟩
    · rw [h]; exact hinv
    · rw [h]; exact allVals_setk hinv hu
  · intro w op token now w' hrun hw
    have hlift : ∀ (r : Except AdminErr Store) (w'' : World),
        liftStoreOp w r = .ok w'' →
        (∀ db', r = .ok db' → allVals unlInv db'.users) →
        worldUnlInv w'' := by
      intro r w'' hr hpres
      cases r with
      | error e => exact Except.noConfusion hr
      | ok db' =>
        simp only [liftStoreOp, Except.map] at hr
        injection hr with hr
        subst hr
        exact ⟨hpres db' rfl, hw.2⟩
    cases op with
    | toggle what =>
      refine hlift _ _ hrun ?_
      intro db' hok
      rw [(admin_toggle_ok hok).2]
      exact hw.1
    | createKeys codes amount unit devices unl su gen =>
      refine hlift _ _ hrun ?_
      intro db' hok
      rw [(admin_create_keys_ok hok).2]
      exact hw.1
    | deleteKey code =>
      refine hlift _ _ hrun ?_
      intro db' hok
      rw [(admin_delete_key_ok hok).2]
      exact hw.1
    | editKey code amount unit devices unl su =>
      refine hlift _ _ hrun ?_
      intro db' hok
      rw [(admin_edit_key_ok hok).2]
      exact hw.1
    | activateId uid amount unit devices unl =>
      refine hlift _ _ hrun ?_
      intro db' hok
      exact (admin_activate_id_ok hok).2 hw.1
    | adjustTime uid amount unit op =>
      refine hlift _ _ hrun ?_
      intro db' hok
      exact (admin_adjust_time_ok hok).2 hw.1
    | setDevices uid devices =>
      refine hlift _ _ hrun ?_
      intro db' hok
      exact (admin_set_devices_ok hok).2 hw.1
    | setUnlimited uid unl =>
      refine hlift _ _ hrun ?_
      intro db' hok
      exact (admin_set_unlimited_ok hok).2 hw.1
    | changeId old_id new_id =>
      refine hlift _ _ hrun ?_
      intro db' hok
      exact (admin_change_id_ok hok).2 hw.1
    | ban uid =>
      refine hlift _ _ hrun ?_
      intro db' hok
      exact (admin_ban_ok hok).2 hw.1
    | unban uid =>
      refine hlift _ _ hrun ?_
      intro db' hok
      exact (admin_unban_ok hok).2 hw.1
    | bulkZero confirm =>
      have h2 := admin_bulk_zero_ok hrun
      subst h2
      refine ⟨?_, hw.1⟩
      simp only [zeroUsers]
      apply allVals_mapVals
      intro a _
      rfl
    | bulkUndo =>
      obtain ⟨b, hbak, h2⟩ := admin_bulk_undo_ok hrun
      subst h2
      have hb : allVals unlInv b.users := by
        have h3 := hw.2
        rw [hbak] at h3
        exact h3
      exact ⟨hb, hb⟩

def c7db : Store :=
  { globals := { free_mode := false, lockdown := false, online := 0, admin_token := "t" },
    users := [("z", { defaultUser "z" with unlimited := true })], keys := [] }

/-- C7 witness: the invariant theorem applied to a concrete store holding
an unlimited user with zero expiry run through api_check. -/
theorem C7_witness :
    allVals unlInv (api_check c7db "z" "hw" 3).2.users :=
  C7_unlimited_zero_canonical.1 c7db "z" "hw" 3 (by decide)

/-- C8: every administrative operation demands an admin token exactly
matching the stored one — with a mismatched token it fails with forbidden
and persists nothing — whenever the stored token is non-empty; and the
stored token is non-empty in every store the system initializes (built-in
default or truthy environment override) and is preserved, together with
the backup's, by every successful admin operation and by both client
endpoints, so the exact-match requirement holds on all reachable stores. -/
theorem C8_admin_token_required :
    (∀ (w : World) (op : AdminOp) (token : String) (now : Int),
        w.main.globals.admin_token ≠ "" → token ≠ w.main.globals.admin_token →
        runAdminOp w op token now = .error .forbidden) ∧
    (∀ env : String, (init_store env).globals.admin_token ≠ "") ∧
    (∀ (t : String) (w : World) (op : AdminOp) (token : String) (now : Int) (w' : World),
        runAdminOp w op token now = .ok w' →
        w.main.globals.admin_token = t →
        w.bak.elim True (fun b => b.globals.admin_token = t) →
        w'.main.globals.admin_token = t ∧
          w'.bak.elim True (fun b => b.globals.admin_token = t)) ∧
    (∀ (db : Store) (id hwid : String) (now : Int),
        (api_check db id hwid now).2.globals.admin_token = db.globals.admin_token) ∧
    (∀ (db : Store) (rid rhwid rkey : String) (now : Int),
        (api_activate_by_key db rid rhwid rkey now).2.globals.admin_token =
          db.globals.admin_token) := by
  refine ⟨?_, ?_, ?_, ?_, ?_⟩
  · intro w op token now hne hm
    have hra : require_admin w.main token = false := by
      simp [require_admin, hne, hm]
    cases op <;>
      simp [runAdminOp, liftStoreOp, admin_toggle, admin_create_keys, admin_delete_key,
        admin_edit_key, admin_activate_id, admin_adjust_time, admin_set_devices,
        admin_set_unlimited, admin_change_id, admin_ban, admin_unban, admin_bulk_zero,
        admin_bulk_undo, Except.map, hra]
  · intro env
    by_cases h : env = ""
    · subst h; decide
    · simp [init_store, h]
  · intro t w op token now w' hrun hmain hbak
    have hlift : ∀ (r : Except AdminErr Store) (w'' : World),
        liftStoreOp w r = .ok w'' →
        (∀ db', r = .ok db' → db'.globals.admin_token = w.main.globals.admin_token) →
        w''.main.globals.admin_token = t ∧
          w''.bak.elim True (fun b => b.globals.admin_token = t) := by
      intro r w'' hr hpres
      cases r with
      | error e => exact Except.noConfusion hr
      | ok db' =>
        simp only [liftStoreOp, Except.map] at hr
        injection hr with hr
        subst hr
        exact ⟨(hpres db' rfl).trans hmain, hbak⟩
    cases op with
    | toggle what =>
      exact hlift _ _ hrun (fun db' hok => (admin_toggle_ok hok).1)
    | createKeys codes amount unit devices unl su gen =>
      exact hlift _ _ hrun (fun db' hok => (admin_create_keys_ok hok).1)
    | deleteKey code =>
      exact hlift _ _ hrun (fun db' hok => (admin_delete_key_ok hok).1)
    | editKey code amount unit devices unl su =>
      exact hlift _ _ hrun (fun db' hok => (admin_edit_key_ok hok).1)
    | activateId uid amount unit devices unl =>
      exact hlift _ _ hrun (fun db' hok => (admin_activate_id_ok hok).1)
    | adjustTime uid amount unit op =>
      exact hlift _ _ hrun (fun db' hok => (admin_adjust_time_ok hok).1)
    | setDevices uid devices =>
      exact hlift _ _ hrun (fun db' hok => (admin_set_devices_ok hok).1)
    | setUnlimited uid unl =>
      exact hlift _ _ hrun (fun db' hok => (admin_set_unlimited_ok hok).1)
    | changeId old_id new_id =>
      exact hlift _ _ hrun (fun db' hok => (admin_change_id_ok hok).1)
    | ban uid =>
      exact hlift _ _ hrun (fun db' hok => (admin_ban_ok hok).1)
    | unban uid =>
      exact hlift _ _ hrun (fun db' hok => (admin_unban_ok hok).1)
    | bulkZero confirm =>
      have h2 := admin_bulk_zero_ok hrun
      subst h2
      exact ⟨hmain, hmain⟩
    | bulkUndo =>
      obtain ⟨b, hbakEq, h2⟩ := admin_bulk_undo_ok hrun
      subst h2
      have hb : b.globals.admin_token = t := by
        have h3 := hbak
        rw [hbakEq] at h3
        exact h3
      exact ⟨hb, hb⟩
  · intro db id hwid now
    simp only [api_check]
    repeat' split
    all_goals rfl
  · intro db rid rhwid rkey now
    simp only [api_activate_by_key]
    repeat' split
    all_goals rfl

def c8w : World := { main := DEFAULT_DB, bak := none }

/-- C8 witness: a mismatched token against the default store's non-empty
admin token makes a concrete admin operation fail with forbidden. -/
theorem C8_witness :
    runAdminOp c8w (.ban "u") "wrongtoken" 0 = .error .forbidden :=
  C8_admin_token_required.1 c8w (.ban "u") "wrongtoken" 0 (by decide) (by decide)

/-- C9: renaming a user fails with no persisted change when the stripped
new id is empty or already taken (bad request) or when the old id does
not exist (not found); on success the record is found under the new id
with its id field rewritten, the old id resolves to nothing, and every
key record's used_by equal to the old id is rewritten to the new id while
all other key fields and keys are untouched. -/
theorem C9_rename_integrity (db : Store) (token old_id new_id : String)
    (ht : require_admin db token = true) :
    ((pyStrip new_id = "" ∨ (getk db.users (pyStrip new_id)).isSome = true) →
        admin_change_id db token old_id new_id = .error .badRequest) ∧
    (¬ (pyStrip new_id = "" ∨ (getk db.users (pyStrip new_id)).isSome = true) →
        getk db.users (pyStrip old_id) = none →
        admin_change_id db token old_id new_id = .error .notFound) ∧
    (∀ u : UserRecord, getk db.users (pyStrip old_id) = some u →
        pyStrip new_id ≠ "" → getk db.users (pyStrip new_id) = none →
        ∃ db', admin_change_id db token old_id new_id = .ok db' ∧
          getk db'.users (pyStrip new_id) = some { u with id := pyStrip new_id } ∧
          getk db'.users (pyStrip old_id) = none ∧
          ∀ c : String, getk db'.keys c = (getk db.keys c).map (fun k =>
            if k.used_by = some (pyStrip old_id) then
              { k with used_by := some (pyStrip new_id) }
            else k)) := by
  refine ⟨?_, ?_, ?_⟩
  · intro hbad
    simp [admin_change_id, ht, hbad]
  · intro hbad hold
    simp [admin_change_id, ht, hbad, hold]
  · intro u hold hne hnew
    have hcond : ¬ (pyStrip new_id = "" ∨ (getk db.users (pyStrip new_id)).isSome = true) := by
      simp [hne, hnew]
    have hno : pyStrip old_id ≠ pyStrip new_id := by
      intro he
      rw [he, hnew] at hold
      exact Option.noConfusion hold
    refine ⟨{ db with
        users := setk (delk db.users (pyStrip old_id)) (pyStrip new_id)
          { u with id := pyStrip new_id },
        keys := mapVals (fun k =>
          if k.used_by = some (pyStrip old_id) then
            { k with used_by := some (pyStrip new_id) }
          else k) db.keys }, ?_, ?_, ?_, ?_⟩
    · simp [admin_change_id, ht, hcond, hold]
    · exact getk_setk_self _ _ _
    · show getk (setk (delk db.users (pyStrip old_id)) (pyStrip new_id)
          { u with id := pyStrip new_id }) (pyStrip old_id) = none
      rw [getk_setk_ne _ _ _ _ hno]
      exact getk_delk_self _ _
    · intro c
      exact getk_mapVals (fun k =>
        if k.used_by = some (pyStrip old_id) then
          { k with used_by := some (pyStrip new_id) }
        else k) db.keys c

def c9u : UserRecord := { defaultUser "alice" with expires_at := 99 }

def c9k : KeyRecord :=
  { code := "CCCC-3333", minutes := 5, devices := 1, unlimited := false,
    single_use := true, used_by := some "alice" }

def c9k2 : KeyRecord :=
  { code := "EEEE-5555", minutes := 5, devices := 1, unlimited := false,
    single_use := true, used_by := some "carol" }

def c9db : Store :=
  { globals := { free_mode := false, lockdown := false, online := 0, admin_token := "t" },
    users := [("alice", c9u)], keys := [("CCCC-3333", c9k), ("EEEE-5555", c9k2)] }

/-- C9 witness: renaming alice to bob in a concrete store succeeds, bob
resolves to the moved record, alice resolves to nothing, and the key
records' used_by fields are rewritten exactly where they equalled alice. -/
theorem C9_witness :
    ∃ db', admin_change_id c9db "t" "alice" "bob" = .ok db' ∧
      getk db'.users (pyStrip "bob") = some { c9u with id := pyStrip "bob" } ∧
      getk db'.users (pyStrip "alice") = none ∧
      ∀ c : String, getk db'.keys c = (getk c9db.keys c).map (fun k =>
        if k.used_by = some (pyStrip "alice") then
          { k with used_by := some (pyStrip "bob") }
        else k) :=
  (C9_rename_integrity c9db "t" "alice" "bob" (by decide)).2.2 c9u
    (by decide) (by decide) (by decide)

/-- C10: bulk zero with a valid token and a confirmation normalizing to
ZERO first backs up the canonical store and then zeroes every user's
unlimited flag and expiry; a subsequent bulk undo restores the backed-up
store, so every user's expires_at and unlimited regain their pre-zero
values; and bulk undo fails with not found when no backup exists. -/
theorem C10_bulk_zero_undo (w : World) (token confirm : String)
    (ht : require_admin w.main token = true)
    (hc : pyUpper (pyStrip confirm) = "ZERO") :
    (admin_bulk_zero w token confirm = .ok { main := zeroUsers w.main, bak := some w.main } ∧
     (∀ p ∈ (zeroUsers w.main).users, p.2.unlimited = false ∧ p.2.expires_at = 0) ∧
     admin_bulk_undo { main := zeroUsers w.main, bak := some w.main } token =
       .ok { main := w.main, bak := some w.main }) ∧
    (∀ w0 : World, w0.bak = none → require_admin w0.main token = true →
        admin_bulk_undo w0 token = .error .notFound) := by
  refine ⟨⟨?_, ?_, ?_⟩, ?_⟩
  · simp [admin_bulk_zero, ht, hc]
  · intro p hp
    simp only [zeroUsers, mapVals, List.mem_map] at hp
    obtain ⟨q, _, rfl⟩ := hp
    exact ⟨rfl, rfl⟩
  · simp [admin_bulk_undo, show require_admin (zeroUsers w.main) token = true from ht]
  · intro w0 hbak ht0
    simp [admin_bulk_undo, ht0, hbak]

def c10main : Store :=
  { globals := { free_mode := false, lockdown := false, online := 0, admin_token := "t" },
    users := [("u", { defaultUser "u" with unlimited := true }),
              ("v", { defaultUser "v" with expires_at := 555 })],
    keys := [] }

def c10w : World := { main := c10main, bak := none }

/-- C10 witness: the round-trip theorem applied to a concrete world with
no prior backup, a valid token, and the confirmation entered as
lower-case with spaces (normalized to ZERO). -/
theorem C10_witness :
    (admin_bulk_zero c10w "t" " zero " =
        .ok { main := zeroUsers c10w.main, bak := some c10w.main } ∧
     (∀ p ∈ (zeroUsers c10w.main).users, p.2.unlimited = false ∧ p.2.expires_at = 0) ∧
     admin_bulk_undo { main := zeroUsers c10w.main, bak := some c10w.main } "t" =
       .ok { main := c10w.main, bak := some c10w.main }) ∧
    (∀ w0 : World, w0.bak = none → require_admin w0.main "t" = true →
        admin_bulk_undo w0 "t" = .error .notFound) :=
  C10_bulk_zero_undo c10w "t" " zero " (by decide) (by decide)

end MyAddon
